import Mathlib

/-!
Shallow embedding of the `unsafer` Go package (src/unsafer.go).

Pointers and machine words are modelled as `Nat`; byte memory is an explicit
heap `Nat → Nat`.  Go interface headers (`AnyInternal`) are two-word records;
the Go runtime's canonical type-descriptor table, which lives outside this
repository, is modelled as an environment `RuntimeEnv` whose guarantees
(one descriptor address per distinct type, descriptor contents reachable at
that address) come from the specification of the host runtime.
-/

namespace Unsafer

/-- Mirrors `const SystemPointerSize = 4 << (^uintptr(0) >> 63)`, parameterised
by the bit width `w` of `uintptr` on the target architecture.
`uintptrNot w x` is bitwise complement at width `w` (for `x < 2 ^ w`). -/
def uintptrNot (w x : Nat) : Nat := 2 ^ w - 1 - x

/-- Mirrors the source constant: `4 << (^uintptr(0) >> 63)` at width `w`. -/
def SystemPointerSize (w : Nat) : Nat := 4 <<< (uintptrNot w 0 >>> 63)

/-- Mirrors `type StringInternal struct { Data unsafe.Pointer; Len int }`. -/
structure StringInternal where
  Data : Nat
  Len : Nat
deriving DecidableEq, Repr

/-- Mirrors `type SliceInternal struct { Data unsafe.Pointer; Len int; Cap int }`. -/
structure SliceInternal where
  Data : Nat
  Len : Nat
  Cap : Nat
deriving DecidableEq, Repr

/-- The three header words of a slice, in memory order `[Data, Len, Cap]`. -/
def SliceInternal.headerWords (s : SliceInternal) : List Nat := [s.Data, s.Len, s.Cap]

/-- Reinterpret a run of header words as a `StringInternal`: a string header
occupies the first two words (`Data`, `Len`). -/
def StringInternal.ofWords : List Nat → StringInternal
  | d :: l :: _ => { Data := d, Len := l }
  | [d] => { Data := d, Len := 0 }
  | [] => { Data := 0, Len := 0 }

/-- Mirrors `func ByteString(slice []byte) string`:
`*(*string)(unsafe.Pointer(&slice))` reads a string header out of the memory
holding the slice header, i.e. keeps `Data` and `Len` and drops `Cap`. -/
def ByteString (slice : SliceInternal) : StringInternal :=
  StringInternal.ofWords slice.headerWords

/-- Byte memory: contents of every address. -/
structure Heap where
  mem : Nat → Nat

/-- Store one byte at `addr`. -/
def Heap.write (h : Heap) (addr v : Nat) : Heap :=
  { mem := fun a => if a = addr then v else h.mem a }

/-- Read `n` consecutive bytes starting at `ptr`. -/
def Heap.readBytes (h : Heap) (ptr n : Nat) : List Nat :=
  (List.range n).map fun i => h.mem (ptr + i)

/-- The bytes observed through a string view. -/
def StringInternal.content (h : Heap) (s : StringInternal) : List Nat :=
  h.readBytes s.Data s.Len

/-- The byte observed through a string view at index `i`. -/
def StringInternal.byteAt (h : Heap) (s : StringInternal) (i : Nat) : Nat :=
  h.mem (s.Data + i)

/-- The bytes observed through a slice view. -/
def SliceInternal.content (h : Heap) (s : SliceInternal) : List Nat :=
  h.readBytes s.Data s.Len

/-! Kind constants, mirroring `type Kind uint8` and its `const` block. -/

def KindBool : Nat := 1
def KindInt : Nat := 2
def KindInt8 : Nat := 3
def KindInt16 : Nat := 4
def KindInt32 : Nat := 5
def KindInt64 : Nat := 6
def KindUint : Nat := 7
def KindUint8 : Nat := 8
def KindUint16 : Nat := 9
def KindUint32 : Nat := 10
def KindUint64 : Nat := 11
def KindUintptr : Nat := 12
def KindFloat32 : Nat := 13
def KindFloat64 : Nat := 14
def KindComplex64 : Nat := 15
def KindComplex128 : Nat := 16
def KindArray : Nat := 17
def KindChan : Nat := 18
def KindFunc : Nat := 19
def KindInterface : Nat := 20
def KindMap : Nat := 21
def KindPointer : Nat := 22
def KindSlice : Nat := 23
def KindString : Nat := 24
def KindStruct : Nat := 25
def KindUnsafePointer : Nat := 26

/-- Mirrors `KindDirectIface Kind = 1 << 5`. -/
def KindDirectIface : Nat := 1 <<< 5
/-- Mirrors `KindGCProg Kind = 1 << 6`. -/
def KindGCProg : Nat := 1 <<< 6
/-- Mirrors `KindMask Kind = (1 << 5) - 1`. -/
def KindMask : Nat := (1 <<< 5) - 1

/-! Type-flag constants, mirroring `type TypeFlag uint8` and its `const` block. -/

def TFlagUncommon : Nat := 1 <<< 0
def TFlagExtraStar : Nat := 1 <<< 1
def TFlagNamed : Nat := 1 <<< 2
def TFlagRegularMemory : Nat := 1 <<< 3

/-- The declared `TypeFlag` constants, in declaration order. -/
def typeFlagConstants : List Nat :=
  [TFlagUncommon, TFlagExtraStar, TFlagNamed, TFlagRegularMemory]

/-! Map-flag constants, mirroring `type MapFlag uint8` and its `const` block. -/

def BeingUsedByIterator : Nat := 1
def OldBeingUsedByIterator : Nat := 2
def BeingWrittenTo : Nat := 4
def GrowingToSameSize : Nat := 8

/-- The declared `MapFlag` constants, in declaration order. -/
def mapFlagConstants : List Nat :=
  [BeingUsedByIterator, OldBeingUsedByIterator, BeingWrittenTo, GrowingToSameSize]

/-- Mirrors `const BucketSize = 8`. -/
def BucketSize : Nat := 8

/-! Top-hash sentinel constants, mirroring the `uint8` const block. -/

def LastEmptyCell : Nat := 0
def EmptyCell : Nat := 1
def EvacuatedToFirstHalf : Nat := 2
def EvacuatedToSecondHalf : Nat := 3
def EvacuatedAndEmpty : Nat := 4
def MinimumTopHash : Nat := 5

/-- Mirrors `type TypeInternal struct`: the runtime's type descriptor.
Function pointers (`Equals`) and data pointers (`GCData`) are modelled as
addresses. The source field `kind` keeps its lowercase name. -/
structure TypeInternal where
  Size : Nat
  PtrData : Nat
  Hash : Nat
  TypeFlags : Nat
  Align : Nat
  FieldAlign : Nat
  kind : Nat
  Equals : Nat
  GCData : Nat
  Name : Int
  Pointertype : Int
deriving DecidableEq, Repr

/-- Mirrors `type AnyInternal struct { Type *TypeInternal; Data unsafe.Pointer }`.
The source field `Type` is named `Typ` here because `Type` is a Lean keyword;
it holds the address of the type descriptor. -/
structure AnyInternal where
  Typ : Nat
  Data : Nat
deriving DecidableEq, Repr

/-- Mirrors `func NoEscape(p unsafe.Pointer) unsafe.Pointer`:
`x := uintptr(p); return unsafe.Pointer(x ^ 0)`. -/
def NoEscape (p : Nat) : Nat := p ^^^ 0

/-- Mirrors `func GetTypePointer(t any) uintptr`: reads the `Type` word of the
interface header and returns it as an address. -/
def GetTypePointer (t : AnyInternal) : Nat := t.Typ

/-- Mirrors `func Spoof(t1 any, t2 any) any`: overwrites the (local copy of)
`t1`'s type word with `GetTypePointer(t2)` and returns it. -/
def Spoof (t1 t2 : AnyInternal) : AnyInternal :=
  { t1 with Typ := GetTypePointer t2 }

/-- Mirrors `func Invent(data unsafe.Pointer, typePointer uintptr) any`:
builds a fresh interface header from the given data pointer and type address. -/
def Invent (data : Nat) (typePointer : Nat) : AnyInternal :=
  { Data := data, Typ := typePointer }

/-- Mirrors `func GetTypeHash(t any) uint32` given the descriptor table of the
runtime environment: dereferences the header's type word and reads `Hash`. -/
def GetTypeHash (typeAt : Nat → TypeInternal) (t : AnyInternal) : Nat :=
  (typeAt t.Typ).Hash

/-- Mirrors `func GetKind(t any) Kind` given the descriptor table of the
runtime environment: `tt.Type.kind & KindMask`. -/
def GetKind (typeAt : Nat → TypeInternal) (t : AnyInternal) : Nat :=
  (typeAt t.Typ).kind &&& KindMask

/-! ### Host-runtime model

The Go runtime that hosts this package is not part of the repository.  What
the claims need from it is modelled here from the spec: a set of concrete Go
types, the raw kind byte the compiler stores in each type's descriptor, and a
canonical descriptor table with exactly one descriptor address per distinct
type for the life of the process. -/

/-- Modelled from the spec: a sample universe of concrete Go types visible to
this package, including a named type (`tMyInt32`) structurally identical to
`int32` but distinct from it, a pointer type whose descriptor kind byte
carries the `KindDirectIface` flag, and the package's own `Kind` type (a named
`uint8`), which is the dynamic type of every value returned by `GetKind`. -/
inductive GoType where
  | tBool
  | tInt
  | tInt8
  | tInt16
  | tInt32
  | tInt64
  | tUint8
  | tString
  | tByteSlice
  | tMyInt32
  | tPtrInt
  | tKind
deriving DecidableEq, Repr

/-- Index of each sample type (used to lay descriptors out at distinct
addresses). -/
def GoType.toIdx : GoType → Nat
  | .tBool => 0
  | .tInt => 1
  | .tInt8 => 2
  | .tInt16 => 3
  | .tInt32 => 4
  | .tInt64 => 5
  | .tUint8 => 6
  | .tString => 7
  | .tByteSlice => 8
  | .tMyInt32 => 9
  | .tPtrInt => 10
  | .tKind => 11

/-- Inverse of `GoType.toIdx`. -/
def GoType.ofIdx : Nat → GoType
  | 0 => .tBool
  | 1 => .tInt
  | 2 => .tInt8
  | 3 => .tInt16
  | 4 => .tInt32
  | 5 => .tInt64
  | 6 => .tUint8
  | 7 => .tString
  | 8 => .tByteSlice
  | 9 => .tMyInt32
  | 10 => .tPtrInt
  | _ => .tKind

/-- Modelled from the spec: the raw `kind` byte the compiler stores in each
type's descriptor. Pointer types carry the `KindDirectIface` flag bit on top
of their base kind; the others are plain base kinds. -/
def kindByteOf : GoType → Nat
  | .tBool => KindBool
  | .tInt => KindInt
  | .tInt8 => KindInt8
  | .tInt16 => KindInt16
  | .tInt32 => KindInt32
  | .tInt64 => KindInt64
  | .tUint8 => KindUint8
  | .tString => KindString
  | .tByteSlice => KindSlice
  | .tMyInt32 => KindInt32
  | .tPtrInt => KindPointer ||| KindDirectIface
  | .tKind => KindUint8

/-- The declared static classification of each sample type: its base kind with
no flag bits. -/
def baseKindOf : GoType → Nat
  | .tBool => KindBool
  | .tInt => KindInt
  | .tInt8 => KindInt8
  | .tInt16 => KindInt16
  | .tInt32 => KindInt32
  | .tInt64 => KindInt64
  | .tUint8 => KindUint8
  | .tString => KindString
  | .tByteSlice => KindSlice
  | .tMyInt32 => KindInt32
  | .tPtrInt => KindPointer
  | .tKind => KindUint8

/-- Modelled from the spec: the host runtime keeps exactly one type descriptor
per distinct type for the life of the process (`desc` gives its stable
address, injectively), and dereferencing that address yields a descriptor
whose `kind` byte is the compiler-assigned one. -/
structure RuntimeEnv where
  desc : GoType → Nat
  desc_inj : ∀ a b : GoType, desc a = desc b → a = b
  typeAt : Nat → TypeInternal
  typeAt_kind : ∀ t : GoType, (typeAt (desc t)).kind = kindByteOf t

/-- A Go value before boxing: its static type and the address of its payload. -/
structure GoValue where
  ty : GoType
  dataPtr : Nat
deriving DecidableEq, Repr

/-- Boxing a value as `any`: the interface header pairs the canonical
descriptor address of the value's type with the payload pointer. -/
def box (R : RuntimeEnv) (v : GoValue) : AnyInternal :=
  { Typ := R.desc v.ty, Data := v.dataPtr }

/-- Boxing a `Kind` value (such as the result of `GetKind`) as `any`: its
dynamic type is the package's named `Kind` type; the payload pointer points at
a copy of the byte `k`, which `GetKind` itself never dereferences. -/
def boxKind (R : RuntimeEnv) (_k : Nat) (addr : Nat) : AnyInternal :=
  { Typ := R.desc GoType.tKind, Data := addr }

/-! ### Call semantics of `Spoof`

`Spoof` takes its `any` arguments by value, so the interface header the body
mutates through `tt` is the callee's own stack copy.  To check the frame
condition this is made explicit: interface headers live in a header heap
addressed by `Nat`, the caller's argument is copied into a fresh parameter
slot, and the body's write through `tt := &t1` hits that slot. -/

/-- Store an interface header at `addr` in a header heap. -/
def writeHeader (H : Nat → AnyInternal) (addr : Nat) (v : AnyInternal) :
    Nat → AnyInternal :=
  fun a => if a = addr then v else H a

/-- One call `Spoof(a, b)` at the memory level: `H` is the header heap,
`aAddr` the address of the caller's variable `a`, `b` the (by-value) second
argument, and `t1Addr` the fresh stack slot of the parameter `t1`.  Returns
the final header heap and the returned `any` value. -/
def SpoofCall (H : Nat → AnyInternal) (aAddr : Nat) (b : AnyInternal)
    (t1Addr : Nat) : (Nat → AnyInternal) × AnyInternal :=
  let H1 := writeHeader H t1Addr (H aAddr)
  let H2 := writeHeader H1 t1Addr { H1 t1Addr with Typ := GetTypePointer b }
  (H2, H2 t1Addr)

/-! ### A concrete runtime environment

Used to evaluate the operators on concrete inputs: descriptors are laid out
96 bytes apart starting at address 4096. -/

/-- Sample descriptor contents for each sample type. -/
def mkType (t : GoType) : TypeInternal :=
  { Size := 8, PtrData := 0, Hash := 1000 + t.toIdx, TypeFlags := TFlagNamed,
    Align := 8, FieldAlign := 8, kind := kindByteOf t,
    Equals := 2000 + t.toIdx, GCData := 0, Name := 0, Pointertype := 0 }

theorem ofIdx_toIdx (t : GoType) : GoType.ofIdx t.toIdx = t := by
  cases t <;> rfl

/-- A concrete runtime environment over the sample types. -/
def R0 : RuntimeEnv where
  desc := fun t => 4096 + 96 * t.toIdx
  desc_inj := by
    intro a b h
    have h2 : a.toIdx = b.toIdx := by dsimp only at h; omega
    calc a = GoType.ofIdx a.toIdx := (ofIdx_toIdx a).symm
    _ = GoType.ofIdx b.toIdx := by rw [h2]
    _ = b := ofIdx_toIdx b
  typeAt := fun addr => mkType (GoType.ofIdx ((addr - 4096) / 96))
  typeAt_kind := by intro t; cases t <;> rfl

/-! ### Claim theorems -/

/-- Claim C1: for every pair of values `a` and `b`, `Spoof(a, b)` reports
`b`'s type under `GetTypePointer`, while its data pointer — and hence the
payload bytes read through it within `a`'s original size — are `a`'s
original ones. -/
theorem spoof_forges_type_keeps_payload (a b : AnyInternal) (h : Heap) (n : Nat) :
    GetTypePointer (Spoof a b) = GetTypePointer b ∧
    (Spoof a b).Data = a.Data ∧
    Heap.readBytes h (Spoof a b).Data n = Heap.readBytes h a.Data n :=
  ⟨rfl, rfl, rfl⟩

/-- Claim C2: `Invent(ptr, GetTypePointer(x))` reports the same type as `x`
under a type-identity check, and the returned header's data pointer is `ptr`. -/
theorem invent_roundtrip (R : RuntimeEnv) (x : GoValue) (ptr : Nat) :
    GetTypePointer (Invent ptr (GetTypePointer (box R x))) =
      GetTypePointer (box R x) ∧
    (Invent ptr (GetTypePointer (box R x))).Data = ptr :=
  ⟨rfl, rfl⟩

/-- Claim C3: the string returned by `ByteString` shares the slice's base data
pointer, has the slice's length at call time, and so its observed content is
exactly the buffer's content at call time. -/
theorem byteString_shares_pointer_and_length (slice : SliceInternal) (h : Heap) :
    (ByteString slice).Data = slice.Data ∧
    (ByteString slice).Len = slice.Len ∧
    StringInternal.content h (ByteString slice) = SliceInternal.content h slice :=
  ⟨rfl, rfl, rfl⟩

/-- Claim C4: after `s = ByteString(slice)`, mutating the buffer at index `i`
within the call-time length changes the byte observed through `s` at `i`;
once the slice has reallocated to a new backing region disjoint from the old
buffer, mutating the new backing array leaves `s`'s observed content
unchanged, frozen at the pre-reallocation buffer. -/
theorem byteString_alias_then_freeze (h : Heap) (slice : SliceInternal)
    (i v newData newCap j w : Nat)
    (_hi : i < slice.Len) (hj : j < newCap)
    (hdisj : ∀ k, k < slice.Len → ∀ m, m < newCap →
      slice.Data + k ≠ newData + m) :
    StringInternal.byteAt (Heap.write h (slice.Data + i) v) (ByteString slice) i
      = v ∧
    StringInternal.content (Heap.write h (newData + j) w) (ByteString slice) =
      StringInternal.content h (ByteString slice) := by
  constructor
  · simp [StringInternal.byteAt, Heap.write, ByteString,
      StringInternal.ofWords, SliceInternal.headerWords]
  · unfold StringInternal.content Heap.readBytes
    refine List.map_congr_left ?_
    intro k hk
    rw [List.mem_range] at hk
    have hk' : k < slice.Len := hk
    have hne : (ByteString slice).Data + k ≠ newData + j := hdisj k hk' j hj
    simp [Heap.write, hne]

/-- Witness for C4 at a concrete heap, slice `{Data := 100, Len := 3, Cap := 4}`,
index 1, and a reallocated region `[200, 208)` disjoint from the old buffer. -/
theorem byteString_alias_then_freeze_witness :
    (1 < (SliceInternal.mk 100 3 4).Len ∧ 5 < 8 ∧
      (∀ k, k < (SliceInternal.mk 100 3 4).Len → ∀ m, m < 8 →
        (SliceInternal.mk 100 3 4).Data + k ≠ 200 + m)) ∧
    (StringInternal.byteAt
        (Heap.write ⟨fun a => a % 7⟩ ((SliceInternal.mk 100 3 4).Data + 1) 9)
        (ByteString (SliceInternal.mk 100 3 4)) 1 = 9 ∧
      StringInternal.content (Heap.write ⟨fun a => a % 7⟩ (200 + 5) 42)
          (ByteString (SliceInternal.mk 100 3 4)) =
        StringInternal.content ⟨fun a => a % 7⟩
          (ByteString (SliceInternal.mk 100 3 4))) :=
  ⟨⟨by decide, by decide, by decide⟩,
    byteString_alias_then_freeze ⟨fun a => a % 7⟩ (SliceInternal.mk 100 3 4)
      1 9 200 8 5 42 (by decide) (by decide) (by decide)⟩

/-- Claim C5: two boxed values report the same `GetTypePointer` address
exactly when their concrete types are identical — identical types share the
one canonical descriptor address, distinct types (including structurally
identical but distinct named types) have distinct addresses. -/
theorem getTypePointer_identity (R : RuntimeEnv) (x y : GoValue) :
    GetTypePointer (box R x) = GetTypePointer (box R y) ↔ x.ty = y.ty := by
  constructor
  · intro h
    exact R.desc_inj x.ty y.ty h
  · intro h
    simp [GetTypePointer, box, h]

/-- Claim C6 counterexample: `GetKind` is not idempotent. Boxing the `Kind`
result of `GetKind` and applying `GetKind` again yields the kind of the
`Kind` type itself (`KindUint8` = 8), not the original kind: for an `int32`
value the first application gives `KindInt32` = 5 and the second gives 8. -/
theorem getKind_not_idempotent :
    GetKind R0.typeAt
        (boxKind R0 (GetKind R0.typeAt (box R0 ⟨GoType.tInt32, 500⟩)) 600) ≠
      GetKind R0.typeAt (box R0 ⟨GoType.tInt32, 500⟩) := by
  decide

/-- Claim C6 (amended): `GetKind` returns the value's base kind tag with the
flag bits (`KindDirectIface`, `KindGCProg`) masked off, matching the declared
static classification; the masking it performs is idempotent (masking the
result again changes nothing); and applying `GetKind` to the boxed result of
`GetKind` always yields `KindUint8`, the kind of the `Kind` type. -/
theorem getKind_masked_classification (R : RuntimeEnv) (v : GoValue) (addr : Nat) :
    GetKind R.typeAt (box R v) = baseKindOf v.ty ∧
    GetKind R.typeAt (box R v) &&& KindMask = GetKind R.typeAt (box R v) ∧
    GetKind R.typeAt (boxKind R (GetKind R.typeAt (box R v)) addr) = KindUint8 := by
  have h1 : GetKind R.typeAt (box R v) = kindByteOf v.ty &&& KindMask := by
    simp [GetKind, box, R.typeAt_kind]
  have h2 : GetKind R.typeAt (boxKind R (GetKind R.typeAt (box R v)) addr) =
      kindByteOf GoType.tKind &&& KindMask := by
    simp [GetKind, boxKind, R.typeAt_kind]
  refine ⟨?_, ?_, ?_⟩
  · rw [h1]
    cases v.ty <;> rfl
  · rw [h1]
    cases v.ty <;> rfl
  · rw [h2]
    rfl

/-- Claim C7: `NoEscape` is the identity on pointers — the applied bit
operation (xor with 0) is a no-op, so the result is bitwise equal to the
argument. -/
theorem noEscape_identity (p : Nat) : NoEscape p = p :=
  Nat.xor_zero p

/-- Claim C8: `SystemPointerSize` equals the pointer width in bytes: the
expression `4 << (^uintptr(0) >> 63)` evaluates to 8 at a 64-bit `uintptr`
and to 4 at a 32-bit `uintptr`. -/
theorem systemPointerSize_values :
    SystemPointerSize 64 = 8 ∧ SystemPointerSize 32 = 4 :=
  ⟨rfl, rfl⟩

/-- Claim C9 counterexample: the source declares four map-state flag
constants, not five. -/
theorem mapFlag_count_not_five :
    mapFlagConstants.length = 4 ∧ mapFlagConstants.length ≠ 5 := by
  decide

/-- Claim C9 (amended): `BucketSize` is 8; the top-hash sentinels occupy 0–4
with `MinimumTopHash` = 5 marking the least real hash byte; the declared
map-state flags are four distinct single-bit values; and the declared type
flags are four distinct single-bit values. -/
theorem wire_constants_values :
    BucketSize = 8 ∧
    LastEmptyCell = 0 ∧ EmptyCell = 1 ∧ EvacuatedToFirstHalf = 2 ∧
    EvacuatedToSecondHalf = 3 ∧ EvacuatedAndEmpty = 4 ∧ MinimumTopHash = 5 ∧
    mapFlagConstants.Nodup ∧ mapFlagConstants.length = 4 ∧
    (∀ f ∈ mapFlagConstants, ∃ i < 8, f = 2 ^ i) ∧
    typeFlagConstants.Nodup ∧ typeFlagConstants.length = 4 ∧
    (∀ f ∈ typeFlagConstants, ∃ i < 8, f = 2 ^ i) := by
  refine ⟨rfl, rfl, rfl, rfl, rfl, rfl, rfl, by decide, rfl, by decide,
    by decide, rfl, by decide⟩

/-- Claim C10: `Spoof` does not mutate the caller's `source` argument: the
header is passed by value into a fresh stack slot, the type-pointer overwrite
hits only that slot, so the caller's variable still holds its original header
(hence reports its own type), while the returned value carries the forged
type over the original data pointer. -/
theorem spoof_call_frame (H : Nat → AnyInternal) (aAddr t1Addr : Nat)
    (b : AnyInternal) (hfresh : t1Addr ≠ aAddr) :
    (SpoofCall H aAddr b t1Addr).1 aAddr = H aAddr ∧
    GetTypePointer ((SpoofCall H aAddr b t1Addr).2) = GetTypePointer b ∧
    ((SpoofCall H aAddr b t1Addr).2).Data = (H aAddr).Data := by
  refine ⟨?_, ?_, ?_⟩ <;>
    simp [SpoofCall, writeHeader, GetTypePointer, hfresh, Ne.symm hfresh]

/-- Header heap for the C10 witness. -/
def H0 : Nat → AnyInternal := fun a => { Typ := 10 * a, Data := 10 * a + 1 }

/-- Witness for C10: caller's variable at address 1, parameter slot at
address 2, donor header `{Typ := 77, Data := 88}`. -/
theorem spoof_call_frame_witness :
    (2 : Nat) ≠ 1 ∧
    ((SpoofCall H0 1 ⟨77, 88⟩ 2).1 1 = H0 1 ∧
      GetTypePointer ((SpoofCall H0 1 ⟨77, 88⟩ 2).2) =
        GetTypePointer ⟨77, 88⟩ ∧
      ((SpoofCall H0 1 ⟨77, 88⟩ 2).2).Data = (H0 1).Data) :=
  ⟨by decide, spoof_call_frame H0 1 2 ⟨77, 88⟩ (by decide)⟩

end Unsafer
